import Mathlib

/-!
Shallow embedding of the local X-server supervision core of
lightdm-bullseye (`src/x-server-local.c`, `src/seat-xdmcp-session.c`,
`src/accounts.c`), with theorems settling the frozen claims about it.

C strings are modelled as `String` (a nullable `gchar *` as
`Option String`), GLib lists as Lean lists, and machine integers as
`Nat`/`Int` (the values the claims touch are tiny, far from any
wrap-around).  External effects (spawning, `kill`, lock files, `PATH`
resolution, the parent environment) are passed in as explicit inputs.
-/

/-! ## String helpers mirroring the GLib calls used by the source -/

/-- ASCII whitespace as classified by `g_ascii_isspace`. -/
def isAsciiSpace (c : Char) : Bool :=
  c = ' ' || c = '\t' || c = '\n' || c = '\x0b' || c = '\x0c' || c = '\r'

/-- Model of `g_strstrip`: remove leading and trailing ASCII whitespace in place. -/
def gStrstrip (s : String) : String :=
  ⟨((s.data.dropWhile isAsciiSpace).reverse.dropWhile isAsciiSpace).reverse⟩

/-- Value of the leading run of decimal digits, accumulator style. -/
def leadingNumber : List Char → Nat → Nat
  | [], acc => acc
  | c :: cs, acc => if c.isDigit then leadingNumber cs (acc * 10 + (c.toNat - '0'.toNat)) else acc

/-- Core of `atoi` on a character list: optional sign, then a run of digits;
no digits at all gives 0. -/
def atoiChars : List Char → Int
  | '-' :: cs => - (leadingNumber cs 0 : Int)
  | '+' :: cs => (leadingNumber cs 0 : Int)
  | cs => (leadingNumber cs 0 : Int)

/-- C `atoi`: skip leading whitespace, optional sign, leading digits.
(Overflow is not modelled; every input the claims touch is tiny.) -/
def atoi (s : String) : Int :=
  atoiChars (s.data.dropWhile isAsciiSpace)

/-- Split a character list on a single-character delimiter, keeping
empty tokens (the semantics of `g_strsplit` with unlimited tokens on a
non-empty string). -/
def splitOnChar (sep : Char) : List Char → List (List Char)
  | [] => [[]]
  | c :: cs =>
    let r := splitOnChar sep cs
    if c = sep then [] :: r
    else
      match r with
      | [] => [[c]]
      | t :: ts => (c :: t) :: ts

/-- Model of `g_strsplit (s, "\n", -1)`.  GLib returns an empty vector on the
empty string; otherwise it splits on every delimiter, keeping empty
tokens. -/
def gStrsplitLines (s : String) : List String :=
  if s = "" then [] else (splitOnChar '\n' s.data).map fun cs => ⟨cs⟩

/-- Join tokens back with `.` separators. -/
def joinWithDot : List String → String
  | [] => ""
  | [t] => t
  | t :: ts => t ++ "." ++ joinWithDot ts

/-- Model of `g_strsplit (s, ".", 3)`: at most three tokens, the third keeping
the remainder (delimiters included); empty string gives no tokens. -/
def gStrsplitDotMax3 (s : String) : List String :=
  if s = "" then []
  else
    match (splitOnChar '.' s.data).map (fun cs => (⟨cs⟩ : String)) with
    | t0 :: t1 :: rest =>
      if rest.length ≤ 1 then t0 :: t1 :: rest
      else [t0, t1, joinWithDot rest]
    | ts => ts

/-- Whether the first character list is an initial segment of the
second (the test `g_str_has_prefix` performs). -/
def listIsInit : List Char → List Char → Bool
  | [], _ => true
  | _ :: _, [] => false
  | a :: as, b :: bs => a = b && listIsInit as bs

/-! ## VersionProbe (`x_server_local_get_version`, lines 76-124) -/

/-- The literal `XORG_VERSION_PREFIX` from the source. -/
def xorgVersionMarker : String := "X.Org X Server "

/-- Model of `find_version`: the remainder of a line carrying the X.Org marker. -/
def find_version (line : String) : Option String :=
  if listIsInit xorgVersionMarker.data line.data then
    some ⟨line.data.drop xorgVersionMarker.data.length⟩
  else none

/-- The file-scope globals `version`, `version_major`, `version_minor`
(initialised to `NULL`, 0, 0). -/
structure VersionState where
  version : Option String
  vmajor : Int
  vminor : Int
  deriving DecidableEq, Repr

/-- Initial global state: `version = NULL`, both numbers 0. -/
def versionInit : VersionState := ⟨none, 0, 0⟩

/-- Model of `x_server_local_get_version`.  The outcome of
`g_spawn_command_line_sync ("X -version", ...)` is supplied as input:
`none` for a spawn failure, otherwise `(exit_status, stderr_text)`.
On the paths where `version` stays `NULL`, the source continues into
`g_strsplit (NULL, ".", 3)` and `g_strv_length (NULL)`; GLib's
precondition checks make those log a critical and return `NULL`
resp. 0 without dereferencing, which we model as an empty token list. -/
def x_server_local_get_version (st : VersionState) (spawn : Option (Int × String)) :
    VersionState :=
  if st.version.isSome then st
  else
    match spawn with
    | none => st
    | some (exitStatus, stderrText) =>
      let v : Option String :=
        if exitStatus = 0 then (gStrsplitLines stderrText).findSome? find_version
        else none
      let tokens : List String :=
        match v with
        | none => []
        | some str => gStrsplitDotMax3 str
      let vmajor : Int := if tokens.length > 0 then atoi (tokens.getD 0 "") else 0
      let vminor : Int := if tokens.length > 1 then atoi (tokens.getD 1 "") else 0
      { version := v, vmajor := vmajor, vminor := vminor }

/-! ## DisplayNumberAllocator (`x-server-local.c`, lines 126-179) -/

/-- The external world the allocator consults: the set of existing
`/tmp/.X<n>-lock` files (`some contents` if the file is readable,
`none` if `g_file_get_contents` fails on it), the outcome of
`kill (pid, 0)` (`true` iff it fails with `ESRCH`), and the configured
`minimum-display-number`. -/
structure AllocEnv where
  locks : List (Nat × Option String)
  killESRCH : Int → Bool
  minimum : Nat

/-- Lock-file lookup: `none` when no `/tmp/.X<n>-lock` exists,
otherwise the readability outcome of that file. -/
def lockFile (env : AllocEnv) (n : Nat) : Option (Option String) :=
  (env.locks.find? fun p => p.1 == n).map Prod.snd

/-- Model of `display_number_in_use`: the number is in the process-wide
`display_numbers` list, or a lock file for it exists whose claim to
validity is not refuted.  The lock is ignored (`in_use = FALSE`) only
when the file is readable and either `atoi` of its stripped contents is
negative or the kill probe fails with `ESRCH`; an unreadable file or a
non-`ESRCH` probe leaves `in_use = TRUE`. -/
def display_number_in_use (reserved : List Nat) (env : AllocEnv) (display_number : Nat) :
    Bool :=
  if display_number ∈ reserved then true
  else
    match lockFile env display_number with
    | none => false
    | some none => true
    | some (some data) =>
      let pid := atoi (gStrstrip data)
      if pid < 0 ∨ env.killESRCH pid then false else true

/-- The `while (display_number_in_use (number)) number++` loop, with
explicit fuel (a sufficient amount is proved to exist below). -/
def findFree (inUse : Nat → Bool) : Nat → Nat → Nat
  | 0, n => n
  | fuel + 1, n => if inUse n then findFree inUse fuel (n + 1) else n

/-- Model of `x_server_local_get_unused_display_number`: scan upward from the
configured minimum, then append the found number to `display_numbers`.
Returns the number and the updated list. -/
def x_server_local_get_unused_display_number (reserved : List Nat) (env : AllocEnv) :
    Nat × List Nat :=
  let number := findFree (display_number_in_use reserved env)
    (reserved.length + env.locks.length + 1) env.minimum
  (number, reserved ++ [number])

/-- Model of `x_server_local_release_display_number`: delete the first list link
holding the number; no-op when absent. -/
def x_server_local_release_display_number (reserved : List Nat) (display_number : Nat) :
    List Nat :=
  reserved.erase display_number

/-- A number reported in use is either reserved or has a lock file. -/
lemma display_number_in_use_mem (reserved : List Nat) (env : AllocEnv) (n : Nat)
    (h : display_number_in_use reserved env n = true) :
    n ∈ reserved ∨ n ∈ env.locks.map Prod.fst := by
  unfold display_number_in_use at h
  by_cases hc : n ∈ reserved
  · exact Or.inl hc
  · right
    rw [if_neg hc] at h
    cases hf : (env.locks.find? fun p => p.1 == n) with
    | none => rw [lockFile, hf] at h; simp at h
    | some p =>
      have hm := List.mem_of_find?_eq_some hf
      have he := List.find?_some hf
      have hp : p.1 = n := by simpa using he
      exact hp ▸ List.mem_map_of_mem Prod.fst hm

/-- Pigeonhole: within any window of `|reserved| + |locks| + 1`
consecutive numbers starting at the minimum, some number is free. -/
lemma exists_free_number (reserved : List Nat) (env : AllocEnv) :
    ∃ m, m < reserved.length + env.locks.length + 1 ∧
      display_number_in_use reserved env (env.minimum + m) = false := by
  by_contra hcon
  push_neg at hcon
  set F := reserved.length + env.locks.length + 1 with hF
  have hall : ∀ m, m < F → display_number_in_use reserved env (env.minimum + m) = true := by
    intro m hm
    cases hx : display_number_in_use reserved env (env.minimum + m) with
    | true => rfl
    | false => exact absurd hx (hcon m hm)
  have hsub : Finset.Ico env.minimum (env.minimum + F) ⊆
      (reserved ++ env.locks.map Prod.fst).toFinset := by
    intro n hn
    rw [Finset.mem_Ico] at hn
    have h1 : display_number_in_use reserved env n = true := by
      have h2 := hall (n - env.minimum) (by omega)
      have he : env.minimum + (n - env.minimum) = n := by omega
      rwa [he] at h2
    rcases display_number_in_use_mem reserved env n h1 with h | h
    · exact List.mem_toFinset.mpr (List.mem_append.mpr (Or.inl h))
    · exact List.mem_toFinset.mpr (List.mem_append.mpr (Or.inr h))
  have hcard := Finset.card_le_card hsub
  have h1 : (Finset.Ico env.minimum (env.minimum + F)).card = F := by
    rw [Nat.card_Ico]; omega
  have h2 : (reserved ++ env.locks.map Prod.fst).toFinset.card ≤
      reserved.length + env.locks.length := by
    calc (reserved ++ env.locks.map Prod.fst).toFinset.card
        ≤ (reserved ++ env.locks.map Prod.fst).length := (reserved ++ _).toFinset_card_le
      _ = reserved.length + env.locks.length := by simp
  omega

/-- The fuel-bounded scan returns the least non-busy number at or above
the start, provided a non-busy number lies within the fuel window. -/
lemma findFree_spec (inUse : Nat → Bool) :
    ∀ fuel start, (∃ m, m < fuel ∧ inUse (start + m) = false) →
      inUse (findFree inUse fuel start) = false ∧
      start ≤ findFree inUse fuel start ∧
      ∀ k, start ≤ k → k < findFree inUse fuel start → inUse k = true := by
  intro fuel
  induction fuel with
  | zero =>
    rintro start ⟨m, hm, _⟩
    omega
  | succ f ih =>
    rintro start ⟨m, hm, hfree⟩
    by_cases hs : inUse start = true
    · have hm0 : m ≠ 0 := by
        intro h0
        rw [h0, Nat.add_zero] at hfree
        rw [hs] at hfree
        exact Bool.noConfusion hfree
      obtain ⟨m', rfl⟩ : ∃ m', m = m' + 1 := ⟨m - 1, by omega⟩
      have hex : ∃ k, k < f ∧ inUse (start + 1 + k) = false :=
        ⟨m', by omega, by rw [show start + 1 + m' = start + (m' + 1) by omega]; exact hfree⟩
      have hih := ih (start + 1) hex
      have hstep : findFree inUse (f + 1) start = findFree inUse f (start + 1) := by
        simp [findFree, hs]
      refine ⟨by rw [hstep]; exact hih.1, by rw [hstep]; omega, ?_⟩
      intro k hk1 hk2
      rw [hstep] at hk2
      rcases Nat.eq_or_lt_of_le hk1 with h | hlt
      · rw [← h]; exact hs
      · exact hih.2.2 k (by omega) hk2
    · have hs' : inUse start = false := by
        cases h : inUse start
        · rfl
        · exact absurd h hs
      have hstep : findFree inUse (f + 1) start = start := by simp [findFree, hs']
      rw [hstep]
      exact ⟨hs', Nat.le_refl start, fun k h1 h2 => by omega⟩

/-- The in-use predicate as the claim words it: a foreign lock is valid
iff the file exists, its stripped contents parse as a positive integer
PID, and the kill probe does not fail with `ESRCH`.  (Stated for
comparison with `display_number_in_use`, which the source defines.) -/
def claimC3InUse (reserved : List Nat) (env : AllocEnv) (n : Nat) : Bool :=
  if n ∈ reserved then true
  else
    match lockFile env n with
    | some (some data) =>
      let pid := atoi (gStrstrip data)
      if 0 < pid then !env.killESRCH pid else false
    | _ => false

/-- A concrete allocator environment: minimum 0, no reservations, and a
lock file `/tmp/.X0-lock` whose contents are `"0"` (`atoi` gives 0, a
non-positive PID; `kill (0, 0)` probes the caller's own process group
and does not fail with `ESRCH`). -/
def lockEnv0 : AllocEnv := ⟨[(0, some "0")], fun _ => false, 0⟩

/-- Claim C3 (counterexample).  With the lock file `/tmp/.X0-lock`
containing `"0"`, the claim's in-use predicate calls display 0 free
(its contents do not parse as a *positive* PID), so the claim says
`reserve ()` returns 0; but the source only ignores a lock whose parsed
PID is negative or whose kill probe fails with `ESRCH`, treats this
lock as valid, and reserves 1. -/
theorem C3_counterexample :
    (x_server_local_get_unused_display_number [] lockEnv0).1 = 1 ∧
    claimC3InUse [] lockEnv0 0 = false ∧
    display_number_in_use [] lockEnv0 0 = true := by
  refine ⟨?_, ?_, ?_⟩ <;> decide

/-- Full correctness of one `reserve ()` call: the returned number is
free, at or above the minimum, least with those properties, and gets
appended to the reserved list. -/
lemma reserve_spec (reserved : List Nat) (env : AllocEnv) :
    display_number_in_use reserved env
      (x_server_local_get_unused_display_number reserved env).1 = false ∧
    env.minimum ≤ (x_server_local_get_unused_display_number reserved env).1 ∧
    (∀ k, env.minimum ≤ k → k < (x_server_local_get_unused_display_number reserved env).1 →
      display_number_in_use reserved env k = true) ∧
    (x_server_local_get_unused_display_number reserved env).2 =
      reserved ++ [(x_server_local_get_unused_display_number reserved env).1] := by
  have hex := exists_free_number reserved env
  have h := findFree_spec (display_number_in_use reserved env)
    (reserved.length + env.locks.length + 1) env.minimum hex
  exact ⟨h.1, h.2.1, h.2.2, rfl⟩

/-- Claim C3 (amended).  Here `reserve ()` returns the smallest `n` at
or above the configured minimum that is not in use, and records it at
the end of the reserved list; `n` is in use iff it is in the reserved
list or a lock file `/tmp/.X<n>-lock` exists and is not refuted —
refuted meaning its contents are readable and either `atoi` of the
stripped contents is negative or the kill probe on that value fails
with `ESRCH`.  (An unreadable lock file, a non-positive parse result
such as 0, and a non-`ESRCH` probe failure all leave the lock valid.) -/
theorem C3_amended_thm (reserved : List Nat) (env : AllocEnv) :
    display_number_in_use reserved env
      (x_server_local_get_unused_display_number reserved env).1 = false ∧
    env.minimum ≤ (x_server_local_get_unused_display_number reserved env).1 ∧
    (∀ k, env.minimum ≤ k → k < (x_server_local_get_unused_display_number reserved env).1 →
      display_number_in_use reserved env k = true) ∧
    (x_server_local_get_unused_display_number reserved env).2 =
      reserved ++ [(x_server_local_get_unused_display_number reserved env).1] :=
  reserve_spec reserved env

/-- Witness for C3 (amended) at a concrete state: the stale-lock
scenario (lock for display 0 whose PID probe reports `ESRCH`) applied
at minimum 0 with display 5 reserved. -/
theorem C3_amended_witness :
    display_number_in_use [5]
      (⟨[(0, some " 123 ")], fun p => p == 123, 0⟩ : AllocEnv)
      (x_server_local_get_unused_display_number [5]
        (⟨[(0, some " 123 ")], fun p => p == 123, 0⟩ : AllocEnv)).1 = false ∧
    (x_server_local_get_unused_display_number [5]
      (⟨[(0, some " 123 ")], fun p => p == 123, 0⟩ : AllocEnv)).2 = [5, 0] := by
  have h := C3_amended_thm [5] (⟨[(0, some " 123 ")], fun p => p == 123, 0⟩ : AllocEnv)
  exact ⟨h.1, by rw [h.2.2.2]; decide⟩

/-- Claim C4.  Reserving a number, releasing it, and reserving again
with the lock-file world unchanged yields the same number (the released
list is exactly the pre-reserve list, so the second scan coincides with
the first); and releasing a number absent from the reserved list leaves
the list unchanged. -/
theorem C4_thm (reserved : List Nat) (env : AllocEnv) :
    x_server_local_release_display_number
      (x_server_local_get_unused_display_number reserved env).2
      (x_server_local_get_unused_display_number reserved env).1 = reserved ∧
    (x_server_local_get_unused_display_number
      (x_server_local_release_display_number
        (x_server_local_get_unused_display_number reserved env).2
        (x_server_local_get_unused_display_number reserved env).1) env).1 =
      (x_server_local_get_unused_display_number reserved env).1 ∧
    ∀ m, m ∉ reserved → x_server_local_release_display_number reserved m = reserved := by
  have hfree := (reserve_spec reserved env).1
  have hnotmem : (x_server_local_get_unused_display_number reserved env).1 ∉ reserved := by
    intro hmem
    rw [display_number_in_use, if_pos hmem] at hfree
    exact Bool.noConfusion hfree
  have hrel : x_server_local_release_display_number
      (x_server_local_get_unused_display_number reserved env).2
      (x_server_local_get_unused_display_number reserved env).1 = reserved := by
    rw [(reserve_spec reserved env).2.2.2]
    rw [x_server_local_release_display_number,
      List.erase_append_right _ hnotmem, List.erase_cons_head, List.append_nil]
  refine ⟨hrel, by rw [hrel], fun m hm => List.erase_of_not_mem hm⟩

/-- Witness for C4: the fresh-allocation scenario (minimum 0, no lock
files) — `reserve ()` gives 0, `release (0)` restores the empty list, a
second `reserve ()` gives 0 again, and releasing the absent number 9 is
a no-op. -/
theorem C4_witness :
    x_server_local_release_display_number
      (x_server_local_get_unused_display_number [] (⟨[], fun _ => false, 0⟩ : AllocEnv)).2
      (x_server_local_get_unused_display_number [] (⟨[], fun _ => false, 0⟩ : AllocEnv)).1 = [] ∧
    (x_server_local_get_unused_display_number
      (x_server_local_release_display_number
        (x_server_local_get_unused_display_number [] (⟨[], fun _ => false, 0⟩ : AllocEnv)).2
        (x_server_local_get_unused_display_number [] (⟨[], fun _ => false, 0⟩ : AllocEnv)).1)
      (⟨[], fun _ => false, 0⟩ : AllocEnv)).1 =
      (x_server_local_get_unused_display_number [] (⟨[], fun _ => false, 0⟩ : AllocEnv)).1 ∧
    x_server_local_release_display_number [] 9 = [] :=
  have h := C4_thm [] (⟨[], fun _ => false, 0⟩ : AllocEnv)
  ⟨h.1, h.2.1, h.2.2 9 (by decide)⟩

/-! ## XDMCPSeat (`seat_xdmcp_session_create_display_server`, lines 37-53) -/

/-- The seat's private state: the cached remote X server, identified by
an abstract handle (`Nat`).  `none` means no server created yet. -/
structure SeatState where
  x_server : Option Nat
  deriving DecidableEq, Repr

/-- Model of `seat_xdmcp_session_create_display_server`.  `sessionType` is
`session_get_session_type (session)`; `fresh` is the handle of the
remote server `x_server_remote_new` would construct on this call.
Returns the display server handed back (`NULL` as `none`) and the
updated seat state. -/
def seat_xdmcp_session_create_display_server (seat : SeatState) (sessionType : String)
    (fresh : Nat) : Option Nat × SeatState :=
  if sessionType ≠ "x" then (none, seat)
  else
    match seat.x_server with
    | some _ => (none, seat)
    | none => (some fresh, ⟨some fresh⟩)

/-! ## XCommandBuilder (`x_server_local_start`, lines 440-491) -/

/-- The configuration snapshot of a LocalXServer that the command
builder reads (the fields of `XServerLocalPrivate` it consults). -/
structure XConfig where
  command : String
  display_number : Nat
  config_file : Option String
  layout : Option String
  xdg_seat : Option String
  allow_tcp : Bool
  xdmcp_server : Option String
  xdmcp_port : Nat
  xdmcp_key : Option String
  vt : Int
  background : Option String

/-- Model of `x_server_local_version_compare`, with the cached version numbers
passed explicitly.  The C source subtracts `guint`s and casts to
`gint`; for the small version numbers involved that is the mathematical
difference, modelled on `Int`. -/
def x_server_local_version_compare (vmajor vminor major minor : Nat) : Int :=
  if vmajor = major then (vminor : Int) - (minor : Int)
  else (vmajor : Int) - (major : Int)

/-- Split a character list at the first space: the token before it and,
when a space occurs, everything after it verbatim (the semantics of
`g_strsplit (command, " ", 2)`). -/
def breakAtSpace : List Char → List Char × Option (List Char)
  | [] => ([], none)
  | c :: cs =>
    if c = ' ' then ([], some cs)
    else
      match breakAtSpace cs with
      | (t, r) => (c :: t, r)

/-- Model of `get_absolute_command`: resolve the first token against `PATH`
(the resolver is passed in as `resolve`, standing for
`g_find_program_in_path`); on success rejoin any remaining arguments
with a single space, on failure return `NULL`. -/
def get_absolute_command (resolve : String → Option String) (command : String) :
    Option String :=
  match breakAtSpace command.data with
  | (tok0, none) =>
    match resolve ⟨tok0⟩ with
    | none => none
    | some abs => some abs
  | (tok0, some rest) =>
    match resolve ⟨tok0⟩ with
    | none => none
    | some abs => some (abs ++ " " ++ (⟨rest⟩ : String))

/-- One optional appended argument group: present iff the option is. -/
def optSeg (flag : String) : Option String → List String
  | some v => [flag ++ v]
  | none => []

/-- The XDMCP / TCP portion of the command line (lines 464-479): with a
remote XDMCP server, `-port`/`-query`/`-cookie`; otherwise `-listen
tcp` gated on X.Org ≥ 1.17 when TCP is allowed, else `-nolisten tcp`. -/
def xdmcpOrTcpSegs (cfg : XConfig) (vmajor vminor : Nat) : List String :=
  match cfg.xdmcp_server with
  | some srv =>
    (if cfg.xdmcp_port ≠ 0 then [" -port " ++ toString cfg.xdmcp_port] else [])
      ++ [" -query " ++ srv]
      ++ optSeg " -cookie " cfg.xdmcp_key
  | none =>
    if cfg.allow_tcp then
      if 0 ≤ x_server_local_version_compare vmajor vminor 1 17 then [" -listen tcp"]
      else []
    else [" -nolisten tcp"]

/-- The ordered list of argument groups appended to the absolute
command by `x_server_local_start` (each list element is one
`g_string_append` of the source, text included verbatim).
`authority_file` is the path produced by `write_authority_file`. -/
def commandSegments (cfg : XConfig) (authority_file : Option String) (vmajor vminor : Nat) :
    List String :=
  [" :" ++ toString cfg.display_number]
    ++ optSeg " -config " cfg.config_file
    ++ optSeg " -layout " cfg.layout
    ++ optSeg " -seat " cfg.xdg_seat
    ++ optSeg " -auth " authority_file
    ++ xdmcpOrTcpSegs cfg vmajor vminor
    ++ (if 0 ≤ cfg.vt then [" vt" ++ (toString cfg.vt ++ " -novtswitch")] else [])
    ++ optSeg " -background " cfg.background

/-- The full command string handed to `process_set_command`: the
absolute command followed by the concatenated argument groups, or
`none` when the binary cannot be resolved. -/
def x_server_local_build_command (resolve : String → Option String) (cfg : XConfig)
    (authority_file : Option String) (vmajor vminor : Nat) : Option String :=
  match get_absolute_command resolve cfg.command with
  | none => none
  | some abs => some (abs ++ String.join (commandSegments cfg authority_file vmajor vminor))

/-- If a string starts with characters other than those of `pre`, it is
not `pre` followed by anything. -/
lemma append_ne_of_take (pre suf t : String)
    (h : t.data.take pre.data.length ≠ pre.data) : pre ++ suf ≠ t := by
  intro he
  apply h
  rw [← he]
  have hd : (pre ++ suf).data = pre.data ++ suf.data := rfl
  rw [hd, List.take_left]

/-- A string with a mismatched head is in no optional argument group
with the given flag text. -/
lemma notmem_optSeg (t flag : String) (o : Option String)
    (h : t.data.take flag.data.length ≠ flag.data) : t ∉ optSeg flag o := by
  cases o with
  | none => simp [optSeg]
  | some v =>
    simp only [optSeg, List.mem_singleton]
    intro he
    exact append_ne_of_take flag v t h he.symm

/-- Singleton variant of `notmem_optSeg`. -/
lemma notmem_single_append (t pre suf : String)
    (h : t.data.take pre.data.length ≠ pre.data) : t ∉ [pre ++ suf] := by
  simp only [List.mem_singleton]
  intro he
  exact append_ne_of_take pre suf t h he.symm

/-- Conditional-singleton variant of `notmem_single_append`. -/
lemma notmem_ite_single (t x : String) (c : Prop) [Decidable c] (h : t ∉ [x]) :
    t ∉ (if c then [x] else []) := by
  split
  · exact h
  · simp

/-- The flag `-listen tcp` is appended iff the no-XDMCP TCP branch appends it. -/
lemma listen_mem_xdmcpOrTcp (cfg : XConfig) (vmajor vminor : Nat) :
    " -listen tcp" ∈ xdmcpOrTcpSegs cfg vmajor vminor ↔
      cfg.allow_tcp = true ∧ cfg.xdmcp_server = none ∧
        0 ≤ x_server_local_version_compare vmajor vminor 1 17 := by
  unfold xdmcpOrTcpSegs
  cases hs : cfg.xdmcp_server with
  | some srv =>
    have h1 : " -listen tcp" ∉
        (if cfg.xdmcp_port ≠ 0 then [" -port " ++ toString cfg.xdmcp_port] else []) :=
      notmem_ite_single _ _ _ (notmem_single_append _ " -port " _ (by decide))
    have h2 : " -listen tcp" ∉ [" -query " ++ srv] :=
      notmem_single_append _ " -query " _ (by decide)
    have h3 : " -listen tcp" ∉ optSeg " -cookie " cfg.xdmcp_key :=
      notmem_optSeg _ " -cookie " _ (by decide)
    simp only [List.mem_append]
    constructor
    · intro h
      rcases h with (h | h) | h
      · exact absurd h h1
      · exact absurd h h2
      · exact absurd h h3
    · rintro ⟨-, hnone, -⟩
      simp [hs] at hnone
  | none =>
    cases hat : cfg.allow_tcp with
    | false => simp
    | true =>
      split
      · simp_all
      · simp_all

/-- The flag `-nolisten tcp` is appended iff TCP is refused with no XDMCP. -/
lemma nolisten_mem_xdmcpOrTcp (cfg : XConfig) (vmajor vminor : Nat) :
    " -nolisten tcp" ∈ xdmcpOrTcpSegs cfg vmajor vminor ↔
      cfg.allow_tcp = false ∧ cfg.xdmcp_server = none := by
  unfold xdmcpOrTcpSegs
  cases hs : cfg.xdmcp_server with
  | some srv =>
    have h1 : " -nolisten tcp" ∉
        (if cfg.xdmcp_port ≠ 0 then [" -port " ++ toString cfg.xdmcp_port] else []) :=
      notmem_ite_single _ _ _ (notmem_single_append _ " -port " _ (by decide))
    have h2 : " -nolisten tcp" ∉ [" -query " ++ srv] :=
      notmem_single_append _ " -query " _ (by decide)
    have h3 : " -nolisten tcp" ∉ optSeg " -cookie " cfg.xdmcp_key :=
      notmem_optSeg _ " -cookie " _ (by decide)
    simp only [List.mem_append]
    constructor
    · intro h
      rcases h with (h | h) | h
      · exact absurd h h1
      · exact absurd h h2
      · exact absurd h h3
    · rintro ⟨-, hnone⟩
      simp [hs] at hnone
  | none =>
    cases hat : cfg.allow_tcp with
    | false => simp
    | true =>
      split
      · simp_all
      · simp_all

/-- Every argument group outside the XDMCP/TCP portion differs from
both TCP flags, so flag membership reduces to that portion. -/
lemma tcpflag_mem_iff (cfg : XConfig) (authority_file : Option String) (vmajor vminor : Nat)
    (t : String) (ht : t = " -listen tcp" ∨ t = " -nolisten tcp") :
    (t ∈ commandSegments cfg authority_file vmajor vminor ↔
      t ∈ xdmcpOrTcpSegs cfg vmajor vminor) := by
  have h1 : t ∉ [" :" ++ toString cfg.display_number] := by
    rcases ht with rfl | rfl
    · exact notmem_single_append _ " :" _ (by decide)
    · exact notmem_single_append _ " :" _ (by decide)
  have h2 : t ∉ optSeg " -config " cfg.config_file := by
    rcases ht with rfl | rfl
    · exact notmem_optSeg _ " -config " _ (by decide)
    · exact notmem_optSeg _ " -config " _ (by decide)
  have h3 : t ∉ optSeg " -layout " cfg.layout := by
    rcases ht with rfl | rfl
    · exact notmem_optSeg _ " -layout " _ (by decide)
    · exact notmem_optSeg _ " -layout " _ (by decide)
  have h4 : t ∉ optSeg " -seat " cfg.xdg_seat := by
    rcases ht with rfl | rfl
    · exact notmem_optSeg _ " -seat " _ (by decide)
    · exact notmem_optSeg _ " -seat " _ (by decide)
  have h5 : t ∉ optSeg " -auth " authority_file := by
    rcases ht with rfl | rfl
    · exact notmem_optSeg _ " -auth " _ (by decide)
    · exact notmem_optSeg _ " -auth " _ (by decide)
  have h6 : t ∉ (if 0 ≤ cfg.vt then [" vt" ++ (toString cfg.vt ++ " -novtswitch")] else []) := by
    rcases ht with rfl | rfl
    · exact notmem_ite_single _ _ _ (notmem_single_append _ " vt" _ (by decide))
    · exact notmem_ite_single _ _ _ (notmem_single_append _ " vt" _ (by decide))
  have h7 : t ∉ optSeg " -background " cfg.background := by
    rcases ht with rfl | rfl
    · exact notmem_optSeg _ " -background " _ (by decide)
    · exact notmem_optSeg _ " -background " _ (by decide)
  unfold commandSegments
  simp only [List.mem_append]
  tauto

/-! ## LocalXServer lifecycle (`x_server_local_start`, `stopped_cb`,
`got_signal_cb`, `write_authority_file`; lines 323-527) -/

/-- The mutable state a LocalXServer's lifecycle touches: the private
struct fields the callbacks read and write, the process-global
`display_numbers` list, and counters of the chained base
`DisplayServer` transitions.  `commandSet` is `priv->command != NULL`
(true from `x_server_local_init` on, which installs the default `"X"`);
`proc` is `priv->x_server_process != NULL`; `authority` is whether
`x_server_get_authority` currently returns a record; `spawnAttempts`
counts calls of `process_start`. -/
structure ServerState where
  commandSet : Bool
  proc : Bool
  gotSignal : Bool
  authority : Bool
  authority_file : Option String
  haveVtRef : Bool
  display_number : Nat
  display_numbers : List Nat
  spawnAttempts : Nat
  baseStarts : Nat
  baseStops : Nat
  deriving DecidableEq, Repr

/-- Model of `stopped_cb` (lines 360-384): drop the VT reference, release the
display number, unlink and clear the authority file — but only when an
authority record is still held and a path is stored — then chain the
base `stop` transition.  The process handle and `got_signal` are left
untouched. -/
def stopped_cb (s : ServerState) : ServerState :=
  { s with
    haveVtRef := false,
    display_numbers :=
      x_server_local_release_display_number s.display_numbers s.display_number,
    authority_file :=
      if s.authority && s.authority_file.isSome then none else s.authority_file,
    baseStops := s.baseStops + 1 }

/-- Model of `write_authority_file` (lines 386-413): a no-op without an
authority record; otherwise compute and store the path only if none is
stored yet. -/
def write_authority_file (s : ServerState) (path : String) : ServerState :=
  if s.authority then
    match s.authority_file with
    | some _ => s
    | none => { s with authority_file := some path }
  else s

/-- Model of `got_signal_cb` (lines 348-358) on SIGUSR1: latch `got_signal` and
chain the base `start` transition, once.  (Any other signal number is a
no-op and is not modelled as an event.) -/
def got_signal_cb (s : ServerState) : ServerState :=
  if s.gotSignal then s
  else { s with gotSignal := true, baseStarts := s.baseStarts + 1 }

/-- Model of `x_server_local_start` (lines 415-527).  `resolveOk` is whether
`get_absolute_command` succeeds, `spawnOk` whether `process_start`
does, `authPath` the path `write_authority_file` would store.  Returns
the new state and the boolean result. -/
def x_server_local_start_step (s : ServerState) (resolveOk spawnOk : Bool)
    (authPath : String) : ServerState × Bool :=
  if s.proc then (s, false)
  else if ¬ s.commandSet then ({ s with gotSignal := false }, false)
  else
    let s1 := { s with gotSignal := false, proc := true }
    if ¬ resolveOk then (stopped_cb s1, false)
    else
      let s2 := write_authority_file s1 authPath
      let s3 := { s2 with spawnAttempts := s2.spawnAttempts + 1 }
      if spawnOk then (s3, true) else (stopped_cb s3, false)

/-- The events observable by one LocalXServer: a `start` invocation
(with the outcomes of command resolution and spawning, and the
authority path), the SIGUSR1 ready signal, the child-exit callback, and
the base class gaining or losing its authority record (losing it is
what `x_server_local_set_xdmcp_key` causes). -/
inductive ServerEvent where
  | start (resolveOk spawnOk : Bool) (authPath : String)
  | sigusr1
  | stopped
  | setAuthority (b : Bool)
  deriving DecidableEq, Repr

/-- One event's effect on the state. -/
def serverStep (s : ServerState) : ServerEvent → ServerState
  | .start r k p => (x_server_local_start_step s r k p).1
  | .sigusr1 => got_signal_cb s
  | .stopped => stopped_cb s
  | .setAuthority b => { s with authority := b }

/-- Run a sequence of events. -/
def runServer (s : ServerState) : List ServerEvent → ServerState
  | [] => s
  | e :: es => runServer (serverStep s e) es

/-- The state `x_server_local_init` leaves (command defaulted to `"X"`,
`vt = -1`, the display number freshly reserved). -/
def serverInit (dn : Nat) (dns : List Nat) : ServerState :=
  ⟨true, false, false, false, none, false, dn, dns, 0, 0, 0⟩

/-- Event classifier used to state the amended C7. -/
def isStartEvent : ServerEvent → Bool
  | .start _ _ _ => true
  | _ => false

/-- No event changes `commandSet`. -/
lemma serverStep_commandSet (s : ServerState) (e : ServerEvent) :
    (serverStep s e).commandSet = s.commandSet := by
  cases e with
  | start r k p =>
    simp only [serverStep, x_server_local_start_step]
    split
    · rfl
    · split
      · rfl
      · split
        · rfl
        · split
          · cases hb : s.authority <;> cases hf : s.authority_file <;>
              simp [write_authority_file, stopped_cb, hb, hf]
          · cases hb : s.authority <;> cases hf : s.authority_file <;>
              simp [write_authority_file, stopped_cb, hb, hf]
  | sigusr1 => simp only [serverStep, got_signal_cb]; split <;> rfl
  | stopped => rfl
  | setAuthority b => rfl

/-- Once the process handle is attached, no event detaches it; and a
`start` on a command-holding server attaches it. -/
lemma serverStep_proc (s : ServerState) (e : ServerEvent) :
    (serverStep s e).proc =
      (s.proc || (isStartEvent e && s.commandSet)) := by
  cases e with
  | start r k p =>
    simp only [serverStep, x_server_local_start_step, isStartEvent]
    split
    · simp_all
    · split
      · simp_all
      · have hc : s.commandSet = true := by
          rename_i h1 h2
          cases hx : s.commandSet
          · exact absurd hx.symm (by simpa using h2)
          · rfl
        have hp : s.proc = false := by
          rename_i h1 h2
          cases hx : s.proc
          · rfl
          · exact absurd hx h1
        split
        · cases hb : s.authority <;> cases hf : s.authority_file <;>
            simp [write_authority_file, stopped_cb, hb, hf, hc, hp]
        · split <;>
            cases hb : s.authority <;> cases hf : s.authority_file <;>
              simp [write_authority_file, stopped_cb, hb, hf, hc, hp]
  | sigusr1 =>
    simp only [serverStep, got_signal_cb, isStartEvent]
    split <;> simp
  | stopped => simp [serverStep, stopped_cb, isStartEvent]
  | setAuthority b => simp [serverStep, isStartEvent]

/-- The process handle after any trace from the initial state is
attached iff the trace contains a `start` invocation. -/
lemma runServer_proc (s : ServerState) (hc : s.commandSet = true) :
    ∀ tr : List ServerEvent, (runServer s tr).proc = (s.proc || tr.any isStartEvent) := by
  intro tr
  induction tr generalizing s with
  | nil => simp [runServer]
  | cons e es ih =>
    have hc' : (serverStep s e).commandSet = true := by
      rw [serverStep_commandSet]; exact hc
    calc (runServer s (e :: es)).proc = (runServer (serverStep s e) es).proc := rfl
      _ = ((serverStep s e).proc || es.any isStartEvent) := ih _ hc'
      _ = ((s.proc || (isStartEvent e && s.commandSet)) || es.any isStartEvent) := by
          rw [serverStep_proc]
      _ = (s.proc || (e :: es).any isStartEvent) := by
          rw [hc]; cases s.proc <;> cases h : isStartEvent e <;> simp [List.any_cons, h]

/-- A realisable lifecycle trace: the seat installs an authority, a
start succeeds, the X server signals ready, then the child exits. -/
def lifecycleTrace : List ServerEvent :=
  [ServerEvent.setAuthority true, ServerEvent.start true true "/run/lightdm/root/:0",
   ServerEvent.sigusr1, ServerEvent.stopped]

/-- Claim C7 (counterexample).  After a successful start, a ready
signal and then the `stopped` event, the window the claim describes has
closed (`baseStops = 1` records the chained base stop), yet the process
handle is still attached and `got_signal` is still true: `stopped_cb`
clears neither, so neither field is confined to the interval between a
successful start and the subsequent stop, as the claim requires. -/
theorem C7_counterexample :
    (runServer (serverInit 0 [0]) lifecycleTrace).baseStops = 1 ∧
    (runServer (serverInit 0 [0]) lifecycleTrace).proc = true ∧
    (runServer (serverInit 0 [0]) lifecycleTrace).gotSignal = true := by
  refine ⟨?_, ?_, ?_⟩ <;> decide

/-- Claim C7 (amended).  The `stopped` event leaves the process handle
and `got_signal` unchanged, and clears the authority-file path exactly
when an authority record is still held and a path is stored; a start
invoked with no handle attached and the command set attaches the handle
— whether or not the start succeeds — and resets `got_signal`; a start
invoked with a handle already attached is a no-op; SIGUSR1 latches
`got_signal`; and over any event trace from the initial state the
handle is attached iff the trace contains a start invocation (not only
between a successful start and the subsequent stop). -/
theorem C7_amended_thm (s : ServerState) (r k : Bool) (p : String) :
    (serverStep s ServerEvent.stopped).proc = s.proc ∧
    (serverStep s ServerEvent.stopped).gotSignal = s.gotSignal ∧
    (serverStep s ServerEvent.stopped).authority_file =
      (if s.authority && s.authority_file.isSome then none else s.authority_file) ∧
    (s.proc = false → s.commandSet = true →
      (serverStep s (ServerEvent.start r k p)).proc = true ∧
      (serverStep s (ServerEvent.start r k p)).gotSignal = false) ∧
    (s.proc = true → serverStep s (ServerEvent.start r k p) = s) ∧
    (serverStep s ServerEvent.sigusr1).gotSignal = true ∧
    (∀ tr : List ServerEvent,
      (runServer (serverInit s.display_number s.display_numbers) tr).proc =
        tr.any isStartEvent) := by
  refine ⟨rfl, rfl, rfl, ?_, ?_, ?_, ?_⟩
  · intro hp hc
    cases r <;> cases k <;>
      cases hb : s.authority <;> cases hf : s.authority_file <;>
        simp [serverStep, x_server_local_start_step, hp, hc, write_authority_file,
          stopped_cb, hb, hf]
  · intro hp
    simp [serverStep, x_server_local_start_step, hp]
  · simp only [serverStep, got_signal_cb]
    split
    · assumption
    · rfl
  · intro tr
    have h := runServer_proc (serverInit s.display_number s.display_numbers) rfl tr
    simpa [serverInit] using h

/-- A concrete state for exercising the amended C7: fresh server on
display 4, authority record held, path stored, ready signal latched. -/
def winState : ServerState :=
  { serverInit 4 [4] with authority := true, authority_file := some "/w", gotSignal := true }

/-- A concrete state whose process handle is already attached. -/
def winState2 : ServerState :=
  { serverInit 4 [4] with proc := true }

/-- Witness for C7 (amended) at concrete states and traces. -/
theorem C7_amended_witness :
    (serverStep winState ServerEvent.stopped).proc = false ∧
    (serverStep winState ServerEvent.stopped).gotSignal = true ∧
    (serverStep winState ServerEvent.stopped).authority_file = none ∧
    (serverStep winState (ServerEvent.start true true "/w")).proc = true ∧
    (serverStep winState (ServerEvent.start true true "/w")).gotSignal = false ∧
    serverStep winState2 (ServerEvent.start true true "/w") = winState2 ∧
    (runServer (serverInit 4 [4])
      [ServerEvent.stopped, ServerEvent.start true true "/w"]).proc = true := by
  have h := C7_amended_thm winState true true "/w"
  have h2 := C7_amended_thm winState2 true true "/w"
  have h3 := C7_amended_thm (serverInit 4 [4]) true true "/w"
  have h4 := h.2.2.2.1 rfl rfl
  exact ⟨h.1.trans rfl, h.2.1.trans rfl, h.2.2.1.trans rfl, h4.1, h4.2,
    h2.2.2.2.2.1 rfl,
    (h3.2.2.2.2.2.2 [ServerEvent.stopped, ServerEvent.start true true "/w"]).trans
      (by decide)⟩

/-- Claim C8.  When the configured command's first token cannot be
resolved against `PATH`, `start` returns failure and synthesises the
`stopped` event: the VT reference is dropped, the display number is
released from the process-wide list, the base `stop` transition is
chained, and `process_start` is never called, so no child process is
spawned. -/
theorem C8_thm (s : ServerState) (k : Bool) (p : String)
    (hproc : s.proc = false) (hcmd : s.commandSet = true) :
    (x_server_local_start_step s false k p).2 = false ∧
    (x_server_local_start_step s false k p).1.haveVtRef = false ∧
    (x_server_local_start_step s false k p).1.display_numbers =
      x_server_local_release_display_number s.display_numbers s.display_number ∧
    (x_server_local_start_step s false k p).1.baseStops = s.baseStops + 1 ∧
    (x_server_local_start_step s false k p).1.spawnAttempts = s.spawnAttempts := by
  simp [x_server_local_start_step, hproc, hcmd, stopped_cb]

/-- A concrete state holding a VT reference on freshly reserved
display 2, about to start with an unresolvable command. -/
def vtHeldState : ServerState :=
  { serverInit 2 [2] with haveVtRef := true }

/-- Witness for C8: the unresolvable-command start on `vtHeldState`. -/
theorem C8_witness :
    (x_server_local_start_step vtHeldState false true "/p").2 = false ∧
    (x_server_local_start_step vtHeldState false true "/p").1.haveVtRef = false ∧
    (x_server_local_start_step vtHeldState false true "/p").1.display_numbers =
      x_server_local_release_display_number vtHeldState.display_numbers
        vtHeldState.display_number ∧
    (x_server_local_start_step vtHeldState false true "/p").1.baseStops =
      vtHeldState.baseStops + 1 ∧
    (x_server_local_start_step vtHeldState false true "/p").1.spawnAttempts =
      vtHeldState.spawnAttempts :=
  C8_thm vtHeldState true "/p" rfl rfl

/-! ## ChildSupervisor environment (`x_server_local_start`, lines 495-518) -/

/-- Model of `process_set_env`: record one variable in the (cleared) child
environment. -/
def setEnvVar (env : String → Option String) (k v : String) : String → Option String :=
  fun n => if n = k then some v else env n

/-- Forward one variable from the parent environment when present
(the repeated `if (g_getenv (...)) process_set_env (...)` idiom). -/
def passIfSet (parent env : String → Option String) (name : String) :
    String → Option String :=
  match parent name with
  | some v => setEnvVar env name v
  | none => env

/-- Lines 495-506: when `DISPLAY` is set in the parent, forward it and
forward `XAUTHORITY` or default it to `<home>/.Xauthority`; when
`DISPLAY` is unset, this whole block is skipped. -/
def displayLayer (parent : String → Option String) (home : String) :
    String → Option String :=
  match parent "DISPLAY" with
  | none => fun _ => none
  | some d =>
    match parent "XAUTHORITY" with
    | some x => setEnvVar (setEnvVar (fun _ => none) "DISPLAY" d) "XAUTHORITY" x
    | none =>
      setEnvVar (setEnvVar (fun _ => none) "DISPLAY" d) "XAUTHORITY"
        (home ++ "/.Xauthority")

/-- The child environment at exec: the process environment is cleared
(`process_set_clear_environment (..., TRUE)`), then the `DISPLAY`
block runs, then `LD_PRELOAD`, `LD_LIBRARY_PATH`, `PATH` and
`LIGHTDM_TEST_ROOT` are forwarded when present. -/
def x_server_local_child_env (parent : String → Option String) (home : String) :
    String → Option String :=
  passIfSet parent
    (passIfSet parent
      (passIfSet parent
        (passIfSet parent (displayLayer parent home) "LD_PRELOAD")
        "LD_LIBRARY_PATH")
      "PATH")
    "LIGHTDM_TEST_ROOT"

/-- The child environment as the claim words it: the whitelist
intersected with the parent environment, with `XAUTHORITY` defaulted to
`<home>/.Xauthority` when `DISPLAY` is set but `XAUTHORITY` is not.
(Under this reading `XAUTHORITY` crosses whenever the parent has it,
`DISPLAY` set or not.) -/
def claimC9Env (parent : String → Option String) (home : String) :
    String → Option String :=
  fun n =>
    if n = "XAUTHORITY" then
      match parent "XAUTHORITY" with
      | some x => some x
      | none =>
        match parent "DISPLAY" with
        | some _ => some (home ++ "/.Xauthority")
        | none => none
    else if n = "DISPLAY" then parent n
    else if n = "LD_PRELOAD" then parent n
    else if n = "LD_LIBRARY_PATH" then parent n
    else if n = "PATH" then parent n
    else if n = "LIGHTDM_TEST_ROOT" then parent n
    else none

/-- The child environment as the source computes it, stated
declaratively: `XAUTHORITY` crosses (or is defaulted) only when
`DISPLAY` is set in the parent. -/
def amendedC9Env (parent : String → Option String) (home : String) :
    String → Option String :=
  fun n =>
    if n = "DISPLAY" then parent "DISPLAY"
    else if n = "XAUTHORITY" then
      match parent "DISPLAY" with
      | none => none
      | some _ =>
        match parent "XAUTHORITY" with
        | some x => some x
        | none => some (home ++ "/.Xauthority")
    else if n = "LD_PRELOAD" then parent n
    else if n = "LD_LIBRARY_PATH" then parent n
    else if n = "PATH" then parent n
    else if n = "LIGHTDM_TEST_ROOT" then parent n
    else none

/-- Evaluating `passIfSet` at its own variable. -/
lemma passIfSet_same (parent env : String → Option String) (name : String) :
    passIfSet parent env name name =
      match parent name with
      | some v => some v
      | none => env name := by
  unfold passIfSet
  cases parent name <;> simp [setEnvVar]

/-- Evaluating `passIfSet` at a different variable. -/
lemma passIfSet_other (parent env : String → Option String) (name n : String)
    (h : n ≠ name) : passIfSet parent env name n = env n := by
  unfold passIfSet
  cases parent name <;> simp [setEnvVar, h]

/-- Evaluating the `DISPLAY` block at any variable. -/
lemma displayLayer_eval (parent : String → Option String) (home : String) (n : String) :
    displayLayer parent home n =
      if n = "XAUTHORITY" then
        match parent "DISPLAY" with
        | none => none
        | some _ =>
          match parent "XAUTHORITY" with
          | some x => some x
          | none => some (home ++ "/.Xauthority")
      else if n = "DISPLAY" then parent "DISPLAY"
      else none := by
  by_cases h1 : n = "XAUTHORITY"
  · subst h1
    unfold displayLayer
    cases hD : parent "DISPLAY" <;> cases hX : parent "XAUTHORITY" <;>
      simp [setEnvVar, hX]
  · by_cases h2 : n = "DISPLAY"
    · subst h2
      unfold displayLayer
      cases hD : parent "DISPLAY" <;> cases hX : parent "XAUTHORITY" <;>
        simp [setEnvVar]
    · unfold displayLayer
      cases hD : parent "DISPLAY" <;> cases hX : parent "XAUTHORITY" <;>
        simp [setEnvVar, h1, h2]

/-! ## UserHandle (`accounts.c`, lines 27-39) -/

/-- Model of `accounts_get_user_by_name`.  `lookup` stands for
`common_user_list_get_user_by_name` on the process-wide directory
singleton (users identified by abstract handles); `username` is the
nullable argument.  The returned pair is the wrapped user (`NULL` as
`none`) and whether the directory was consulted at all. -/
def accounts_get_user_by_name (lookup : String → Option Nat) (username : Option String) :
    Option Nat × Bool :=
  match username with
  | none => (none, false)
  | some u =>
    match lookup u with
    | none => (none, true)
    | some common_user => (some common_user, true)

/-! ## Theorems for C1 and C2 -/

/-- Claim C1 (counterexample).  The claim says every invocation with a
session of type `"x"` yields the same remote display-server object as
the first such invocation.  On a fresh seat the first `"x"` invocation
creates and returns server 0, but the second `"x"` invocation returns
`none` rather than server 0 (the source returns `NULL` whenever
`priv->x_server` is already set), so the claim is false. -/
theorem C1_counterexample :
    seat_xdmcp_session_create_display_server ⟨none⟩ "x" 0 = (some 0, ⟨some 0⟩) ∧
    seat_xdmcp_session_create_display_server ⟨some 0⟩ "x" 1 = (none, ⟨some 0⟩) := by
  constructor <;> rfl

/-- Claim C1 (amended).  An invocation with a session type other than
`"x"` returns none and leaves the seat unchanged; an invocation of type
`"x"` while the seat already holds a remote server returns none and
leaves the seat unchanged (so a second server is never created); and
the first `"x"` invocation on a seat without a server creates, caches
and returns one. -/
theorem C1_amended_thm (seat : SeatState) (sessionType : String) (fresh : Nat) :
    (sessionType ≠ "x" →
      seat_xdmcp_session_create_display_server seat sessionType fresh = (none, seat)) ∧
    (∀ h, seat.x_server = some h →
      seat_xdmcp_session_create_display_server seat "x" fresh = (none, seat)) ∧
    (seat.x_server = none →
      seat_xdmcp_session_create_display_server seat "x" fresh = (some fresh, ⟨some fresh⟩)) := by
  refine ⟨fun hne => ?_, fun h hh => ?_, fun hn => ?_⟩
  · simp [seat_xdmcp_session_create_display_server, hne]
  · simp [seat_xdmcp_session_create_display_server, hh]
  · simp [seat_xdmcp_session_create_display_server, hn]

/-- Witness for C1 (amended), at concrete seats and session types. -/
theorem C1_amended_witness :
    seat_xdmcp_session_create_display_server ⟨none⟩ "wayland" 5 = (none, ⟨none⟩) ∧
    seat_xdmcp_session_create_display_server ⟨some 3⟩ "x" 5 = (none, ⟨some 3⟩) ∧
    seat_xdmcp_session_create_display_server ⟨none⟩ "x" 5 = (some 5, ⟨some 5⟩) :=
  ⟨(C1_amended_thm ⟨none⟩ "wayland" 5).1 (by decide),
   (C1_amended_thm ⟨some 3⟩ "x" 5).2.1 3 rfl,
   (C1_amended_thm ⟨none⟩ "x" 5).2.2 rfl⟩

/-- Claim C5.  For every configuration, the command line carries
`-listen tcp` iff TCP is allowed, no XDMCP server is set, and the
probed version compares at least (1, 17); it carries `-nolisten tcp`
iff TCP is refused and no XDMCP server is set; it never carries both;
and with an XDMCP server set it carries neither.  (Membership is in the
list of argument groups the source appends.) -/
theorem C5_thm (cfg : XConfig) (authority_file : Option String) (vmajor vminor : Nat) :
    (" -listen tcp" ∈ commandSegments cfg authority_file vmajor vminor ↔
      cfg.allow_tcp = true ∧ cfg.xdmcp_server = none ∧
        0 ≤ x_server_local_version_compare vmajor vminor 1 17) ∧
    (" -nolisten tcp" ∈ commandSegments cfg authority_file vmajor vminor ↔
      cfg.allow_tcp = false ∧ cfg.xdmcp_server = none) ∧
    ¬(" -listen tcp" ∈ commandSegments cfg authority_file vmajor vminor ∧
      " -nolisten tcp" ∈ commandSegments cfg authority_file vmajor vminor) ∧
    (∀ srv, cfg.xdmcp_server = some srv →
      " -listen tcp" ∉ commandSegments cfg authority_file vmajor vminor ∧
      " -nolisten tcp" ∉ commandSegments cfg authority_file vmajor vminor) := by
  have hl := (tcpflag_mem_iff cfg authority_file vmajor vminor _ (Or.inl rfl)).trans
    (listen_mem_xdmcpOrTcp cfg vmajor vminor)
  have hn := (tcpflag_mem_iff cfg authority_file vmajor vminor _ (Or.inr rfl)).trans
    (nolisten_mem_xdmcpOrTcp cfg vmajor vminor)
  refine ⟨hl, hn, ?_, ?_⟩
  · rintro ⟨h1, h2⟩
    rw [hl] at h1
    rw [hn] at h2
    exact Bool.noConfusion (h1.1.symm.trans h2.1)
  · intro srv hs
    constructor
    · intro h1
      rw [hl] at h1
      rw [hs] at h1
      exact Option.noConfusion h1.2.1
    · intro h2
      rw [hn] at h2
      rw [hs] at h2
      exact Option.noConfusion h2.2

/-- The XDMCP-query scenario of the spec: remote server
`host.example`, port 177, cookie `deadbeef`. -/
def cfgXdmcp : XConfig :=
  ⟨"X", 0, none, none, none, false, some "host.example", 177, some "deadbeef", -1, none⟩

/-- Witness for C5: in the XDMCP-query scenario the command carries
neither `-listen tcp` nor `-nolisten tcp`. -/
theorem C5_witness :
    " -listen tcp" ∉ commandSegments cfgXdmcp none 1 20 ∧
    " -nolisten tcp" ∉ commandSegments cfgXdmcp none 1 20 :=
  (C5_thm cfgXdmcp none 1 20).2.2.2 "host.example" rfl

/-- The argument-assembly scenario of the spec: command `X`, display 2,
layout `foo`, seat `seat0`, TCP refused, VT 7, nothing else set. -/
def cfgAssembly : XConfig :=
  ⟨"X", 2, none, some "foo", some "seat0", false, none, 0, none, 7, none⟩

/-- Claim C6.  In the argument-assembly scenario, with the authority
file written at `/run/lightdm/root/:2` and `X` resolving to any
absolute path `p`, the built command string is exactly `p` followed by
` :2 -layout foo -seat seat0 -auth /run/lightdm/root/:2 -nolisten tcp
vt7 -novtswitch`, in that order. -/
theorem C6_thm (resolve : String → Option String) (p : String) (vmajor vminor : Nat)
    (h : resolve "X" = some p) :
    x_server_local_build_command resolve cfgAssembly (some "/run/lightdm/root/:2")
        vmajor vminor =
      some (p ++
        " :2 -layout foo -seat seat0 -auth /run/lightdm/root/:2 -nolisten tcp vt7 -novtswitch") := by
  have habs : get_absolute_command resolve cfgAssembly.command = some p := by
    have h1 : get_absolute_command resolve cfgAssembly.command =
        match resolve "X" with
        | none => none
        | some abs => some abs := rfl
    rw [h1, h]
  unfold x_server_local_build_command
  rw [habs]
  show some (p ++
    String.join (commandSegments cfgAssembly (some "/run/lightdm/root/:2") vmajor vminor)) = _
  have hjoin : String.join
      (commandSegments cfgAssembly (some "/run/lightdm/root/:2") vmajor vminor) =
      " :2 -layout foo -seat seat0 -auth /run/lightdm/root/:2 -nolisten tcp vt7 -novtswitch" :=
    rfl
  rw [hjoin]

/-- A concrete `PATH` resolver mapping `X` to `/usr/bin/X`. -/
def resolveUsrBin : String → Option String :=
  fun s => if s = "X" then some "/usr/bin/X" else none

/-- Witness for C6 with `X` resolved to `/usr/bin/X`. -/
theorem C6_witness :
    x_server_local_build_command resolveUsrBin cfgAssembly (some "/run/lightdm/root/:2") 1 20 =
      some "/usr/bin/X :2 -layout foo -seat seat0 -auth /run/lightdm/root/:2 -nolisten tcp vt7 -novtswitch" :=
  (C6_thm resolveUsrBin "/usr/bin/X" 1 20 rfl).trans (by decide)

/-- Claim C2.  On every failure path of the version probe — spawn
failure, non-zero exit status, or zero exit with no stderr line
carrying the `X.Org X Server ` marker — the probe completes and leaves
the cached version unknown: `version` still `NULL` and both cached
numbers 0.  (GLib's `g_strsplit`/`g_strv_length` precondition checks
return `NULL`/0 on the `NULL` input rather than dereferencing it.) -/
theorem C2_thm (spawn : Option (Int × String))
    (h : spawn = none ∨
      ∃ es err, spawn = some (es, err) ∧
        (es ≠ 0 ∨ (gStrsplitLines err).findSome? find_version = none)) :
    x_server_local_get_version versionInit spawn = versionInit := by
  rcases h with h | ⟨es, err, hs, h⟩
  · subst h; rfl
  · subst hs
    rcases h with h | h
    · simp [x_server_local_get_version, versionInit, h]
    · simp [x_server_local_get_version, versionInit, h]

/-- Witness for C2: a run with exit status 1, a run whose spawn failed,
and a zero-exit run with no marker line all leave the state initial. -/
theorem C2_witness :
    x_server_local_get_version versionInit (some (1, "some error")) = versionInit ∧
    x_server_local_get_version versionInit none = versionInit ∧
    x_server_local_get_version versionInit (some (0, "no marker here")) = versionInit :=
  ⟨C2_thm (some (1, "some error")) (Or.inr ⟨1, "some error", rfl, Or.inl (by decide)⟩),
   C2_thm none (Or.inl rfl),
   C2_thm (some (0, "no marker here")) (Or.inr ⟨0, "no marker here", rfl, Or.inr (by decide)⟩)⟩

/-- A parent environment with `XAUTHORITY` set but `DISPLAY` unset. -/
def parentXAuthOnly : String → Option String :=
  fun n => if n = "XAUTHORITY" then some "/a" else none

/-- Claim C9 (counterexample).  With `XAUTHORITY=/a` in the parent but
no `DISPLAY`, the claim's whitelist-intersection reading forwards
`XAUTHORITY` to the child, but the source forwards `XAUTHORITY` only
inside the `DISPLAY` branch, so the child environment drops it. -/
theorem C9_counterexample :
    x_server_local_child_env parentXAuthOnly "/home/u" "XAUTHORITY" = none ∧
    claimC9Env parentXAuthOnly "/home/u" "XAUTHORITY" = some "/a" := by
  constructor <;> rfl

/-- Claim C9 (amended).  The environment passed to the child at exec is
exactly the whitelist `{DISPLAY, XAUTHORITY, LD_PRELOAD,
LD_LIBRARY_PATH, PATH, LIGHTDM_TEST_ROOT}` intersected with the
parent's environment, starting from a cleared environment, except that
`XAUTHORITY` crosses only when `DISPLAY` is also set in the parent —
forwarded if present, defaulted to `<home>/.Xauthority` otherwise — and
no other variable crosses. -/
theorem C9_amended_thm (parent : String → Option String) (home : String) (n : String) :
    x_server_local_child_env parent home n = amendedC9Env parent home n := by
  unfold x_server_local_child_env amendedC9Env
  by_cases h1 : n = "DISPLAY"
  · subst h1
    rw [passIfSet_other parent _ _ _ (by decide), passIfSet_other parent _ _ _ (by decide),
      passIfSet_other parent _ _ _ (by decide), passIfSet_other parent _ _ _ (by decide),
      displayLayer_eval]
    simp
  by_cases h2 : n = "XAUTHORITY"
  · subst h2
    rw [passIfSet_other parent _ _ _ (by decide), passIfSet_other parent _ _ _ (by decide),
      passIfSet_other parent _ _ _ (by decide), passIfSet_other parent _ _ _ (by decide),
      displayLayer_eval]
    simp
  by_cases h3 : n = "LD_PRELOAD"
  · subst h3
    rw [passIfSet_other parent _ _ _ (by decide), passIfSet_other parent _ _ _ (by decide),
      passIfSet_other parent _ _ _ (by decide), passIfSet_same, displayLayer_eval]
    cases hv : parent "LD_PRELOAD" <;> simp [hv]
  by_cases h4 : n = "LD_LIBRARY_PATH"
  · subst h4
    rw [passIfSet_other parent _ _ _ (by decide), passIfSet_other parent _ _ _ (by decide),
      passIfSet_same]
    cases hv : parent "LD_LIBRARY_PATH" <;>
      rw [passIfSet_other parent _ _ _ (by decide), displayLayer_eval] <;> simp [hv]
  by_cases h5 : n = "PATH"
  · subst h5
    rw [passIfSet_other parent _ _ _ (by decide), passIfSet_same]
    cases hv : parent "PATH" <;>
      rw [passIfSet_other parent _ _ _ (by decide),
        passIfSet_other parent _ _ _ (by decide), displayLayer_eval] <;> simp [hv]
  by_cases h6 : n = "LIGHTDM_TEST_ROOT"
  · subst h6
    rw [passIfSet_same]
    cases hv : parent "LIGHTDM_TEST_ROOT" <;>
      rw [passIfSet_other parent _ _ _ (by decide),
        passIfSet_other parent _ _ _ (by decide),
        passIfSet_other parent _ _ _ (by decide), displayLayer_eval] <;> simp [hv]
  · rw [passIfSet_other parent _ _ _ h6, passIfSet_other parent _ _ _ h5,
      passIfSet_other parent _ _ _ h4, passIfSet_other parent _ _ _ h3,
      displayLayer_eval]
    simp [h1, h2, h3, h4, h5, h6]

/-- An empty user directory. -/
def emptyDirectory : String → Option Nat := fun _ => none

/-- Claim C10.  `accounts_get_user_by_name` with a `NULL` username
returns `NULL` without consulting the user directory (the
`g_return_val_if_fail` guard fires first), and with a username absent
from the directory it returns `NULL` after consulting it. -/
theorem C10_thm (lookup : String → Option Nat) (u : String) :
    accounts_get_user_by_name lookup none = (none, false) ∧
    (lookup u = none → accounts_get_user_by_name lookup (some u) = (none, true)) := by
  constructor
  · rfl
  · intro h
    simp [accounts_get_user_by_name, h]

/-- Witness for C10 on the empty directory and username `alice`. -/
theorem C10_witness :
    accounts_get_user_by_name emptyDirectory none = (none, false) ∧
    accounts_get_user_by_name emptyDirectory (some "alice") = (none, true) :=
  ⟨(C10_thm emptyDirectory "alice").1, (C10_thm emptyDirectory "alice").2 rfl⟩
